import Mathlib

/-!
Verification of the conversion orchestrator of `autocxx`
(file `src/engine/src/conversion/mod.rs`).

The file under `src/` contains the pipeline orchestrator
`BridgeConverter::convert`, the `CppEffectiveName` newtype with its helper
methods, and the `check_for_fatal_attrs` validation function.  The analysis
phases (`convert_typedef_targets`, `analyze_pod_apis`, …), the parser and the
two code generators live in sibling modules that are not part of the sources;
following the specification they are modelled as explicit phase functions
bundled in a `Phases` structure, and the orchestrator is verified generically
over them.  `dump_apis` (pure logging) is omitted from the pure model.
-/

namespace Autocxx

/-- Placeholder for an external `syn::Item` (a parsed declaration).  The
pipeline never inspects its structure in the orchestrator. -/
structure Item where
  text : String
deriving DecidableEq, Repr

/-- Model of `syn::ItemMod`: a module that either has inline content (a brace
plus a list of items; the brace token is irrelevant and omitted) or none. -/
structure ItemMod where
  content : Option (List Item)
deriving DecidableEq, Repr

/-- Modelled from the spec: a qualified name is a namespaced identifier; we
keep the namespace segments and the final item separately, as the source's
`QualifiedName` does (`types.rs` is not among the sources). -/
structure QualifiedName where
  ns : List String
  final : String
deriving DecidableEq, Repr

/-- `QualifiedName::get_final_item`: the last segment, as a string. -/
def QualifiedName.get_final_item (n : QualifiedName) : String := n.final

/-- `QualifiedName::get_final_ident`: the last segment, as an identifier
(identifiers are modelled as strings). -/
def QualifiedName.get_final_ident (n : QualifiedName) : String := n.final

/-- Modelled from the spec: C++ visibility as reported by the external
parser's callbacks (`autocxx_bindgen::callbacks::Visibility`). -/
inductive CppVisibility where
  | Public
  | Protected
  | Private
deriving DecidableEq, Repr

/-- Modelled from the spec: the parse-callback results supply, per item, the
visibility and the "discards template parameter" flag
(`parse_callbacks.rs` is not among the sources). -/
structure ParseCallbackResults where
  discards_template_param : QualifiedName → Bool
  get_cpp_visibility : QualifiedName → CppVisibility

/-- Modelled from the spec: errors arising on the C++ side of conversion
(`convert_error.rs` is not among the sources).  The two variants used by
`check_for_fatal_attrs` are present; `UnsafePodType` models the per-type
error for an explicitly requested POD type that cannot satisfy POD; `Other`
stands for the remaining variants. -/
inductive ConvertErrorFromCpp where
  | UnusedTemplateParam
  | NonPublicNestedType
  | UnsafePodType (detail : String)
  | Other (detail : String)
deriving DecidableEq, BEq, Repr

/-- Modelled from the spec / source usage: the top-level error type of
`convert`.  The orchestrator constructs exactly `NoContent` and `Cpp`. -/
inductive ConvertError where
  | NoContent
  | Cpp (e : ConvertErrorFromCpp)
deriving DecidableEq, BEq, Repr

/-- `ErrorContext`: context attached to a per-item error; the orchestrator
only uses `new_for_item`. -/
inductive ErrorContext where
  | Item (id : String)
deriving DecidableEq, Repr

/-- `ErrorContext::new_for_item`. -/
def ErrorContext.new_for_item (id : String) : ErrorContext := ErrorContext.Item id

/-- `ConvertErrorWithContext(ConvertErrorFromCpp, Option<ErrorContext>)`. -/
structure ConvertErrorWithContext where
  err : ConvertErrorFromCpp
  ctx : Option ErrorContext
deriving DecidableEq, Repr

/-- `CppFilePair`: the generated C++ header/implementation pair together with
its own header name. -/
structure CppFilePair where
  header : String
  implementation : Option String
  header_name : String
deriving DecidableEq, Repr

/-- Modelled from the spec: the header namer from `CppCodegenOptions`; calling
it once yields the generated header name (modelled as a pure value). -/
structure HeaderNamer where
  name_header : String
deriving DecidableEq, Repr

/-- Modelled from the spec: the C++-codegen options; only the header namer is
consulted by the orchestrator. -/
structure CppCodegenOptions where
  cxxgen_header_namer : HeaderNamer
deriving DecidableEq, Repr

/-- Modelled from the spec: codegen options; the orchestrator reads
`force_wrapper_gen` and the C++ options. -/
structure CodegenOptions where
  force_wrapper_gen : Bool
  cpp_codegen_options : CppCodegenOptions
deriving DecidableEq, Repr

/-- Modelled from the spec: the unsafe-policy setting passed through to
function analysis and Rust codegen. -/
inductive UnsafePolicy where
  | AllFunctionsSafe
  | AllFunctionsUnsafe
deriving DecidableEq, Repr

/-- Modelled from the spec: the caller's configuration; the orchestrator
passes it through opaquely, so only the allow-list root set is kept. -/
structure IncludeCppConfig where
  allowlist : List String
deriving DecidableEq, Repr

/-- `BridgeConverter`: holds the include list and the configuration. -/
structure BridgeConverter where
  include_list : List String
  config : IncludeCppConfig

/-- `CodegenResults`: C++ and Rust code generation output.  In the source
`rs` is a `Vec<syn::Item>`; since `syn::Item` is external the result type of
Rust codegen is abstracted as `R`. -/
structure CodegenResults (R : Type) where
  rs : R
  cpp : Option CppFilePair
  cxxgen_header_name : String
deriving DecidableEq, Repr

/-- Modelled from the spec: the analysis and code-generation phases invoked
by `convert` live in modules that are not among the sources
(`analysis/*`, `parse.rs`, `codegen_cpp.rs`, `codegen_rs.rs`).  Each field
abstracts one such function with exactly the call shape it has in
`conversion/mod.rs`; `A` is the record-collection type (the source uses a
phase-indexed `ApiVec`), `R` the Rust-codegen output type. -/
structure Phases (A R : Type) where
  parse_items : IncludeCppConfig → ParseCallbackResults → List Item → String → Except ConvertError A
  convert_typedef_targets : IncludeCppConfig → A → ParseCallbackResults → A
  analyze_pod_apis : A → IncludeCppConfig → ParseCallbackResults → Except ConvertErrorFromCpp A
  replace_hopeless_typedef_targets : IncludeCppConfig → A → A
  add_casts : A → A
  create_alloc_and_frees : A → A
  analyze_functions : A → UnsafePolicy → IncludeCppConfig → Bool → A
  mark_types_abstract : A → A
  decorate_types_with_constructor_deps : A → A
  discard_ignored_functions : A → A
  check_names : A → A
  filter_apis_by_ignored_dependents : A → A
  filter_apis_by_following_edges_from_allowlist : A → IncludeCppConfig → A
  append_ctype_information : A → A
  generate_cpp_code : String → A → IncludeCppConfig → CppCodegenOptions → String → Except ConvertErrorFromCpp (Option CppFilePair)
  generate_rs_code : A → UnsafePolicy → List String → ItemMod → IncludeCppConfig → Option String → R

/-- The code-generation stage of `convert` (source lines 183–209): obtain the
header name from the namer, run the C++ generator with that name, then hand
the Rust generator the produced pair's own header name (if any), and return
all three outputs. -/
def codegenStage {A R : Type} (P : Phases A R) (self : BridgeConverter)
    (analyzed_apis : A) (bindgen_mod : ItemMod) (unsafe_policy : UnsafePolicy)
    (inclusions : String) (codegen_options : CodegenOptions) :
    Except ConvertError (CodegenResults R) :=
  let cxxgen_header_name := codegen_options.cpp_codegen_options.cxxgen_header_namer.name_header
  match P.generate_cpp_code inclusions analyzed_apis self.config
      codegen_options.cpp_codegen_options cxxgen_header_name with
  | Except.error e => Except.error (ConvertError.Cpp e)
  | Except.ok cpp =>
      let rs := P.generate_rs_code analyzed_apis unsafe_policy self.include_list
        bindgen_mod self.config (cpp.map (fun file_pair => file_pair.header_name))
      Except.ok { rs := rs, cpp := cpp, cxxgen_header_name := cxxgen_header_name }

/-- `BridgeConverter::convert` (source lines 109–212), faithful to the
source's sequence: `NoContent` on a module without content, otherwise parse,
typedef conversion, POD analysis (whose error aborts via `?`, wrapped in
`ConvertError::Cpp`), `replace_hopeless_typedef_targets`, cast insertion,
allocator/free synthesis, function analysis, abstract marking, constructor
dependency decoration, discarding ignored functions, name checking,
ignored-dependent filtering, reachability GC, C-type information collection,
and finally the code-generation stage. -/
def BridgeConverter.convert {A R : Type} (P : Phases A R) (self : BridgeConverter)
    (bindgen_mod : ItemMod) (parse_callback_results : ParseCallbackResults)
    (unsafe_policy : UnsafePolicy) (inclusions : String)
    (codegen_options : CodegenOptions) (source_file_contents : String) :
    Except ConvertError (CodegenResults R) :=
  match bindgen_mod.content with
  | none => Except.error ConvertError.NoContent
  | some items =>
    match P.parse_items self.config parse_callback_results items source_file_contents with
    | Except.error e => Except.error e
    | Except.ok apis =>
      let apis := P.convert_typedef_targets self.config apis parse_callback_results
      match P.analyze_pod_apis apis self.config parse_callback_results with
      | Except.error e => Except.error (ConvertError.Cpp e)
      | Except.ok analyzed_apis =>
        let analyzed_apis := P.replace_hopeless_typedef_targets self.config analyzed_apis
        let analyzed_apis := P.add_casts analyzed_apis
        let analyzed_apis := P.create_alloc_and_frees analyzed_apis
        let analyzed_apis := P.analyze_functions analyzed_apis unsafe_policy self.config
          codegen_options.force_wrapper_gen
        let analyzed_apis := P.mark_types_abstract analyzed_apis
        let analyzed_apis := P.decorate_types_with_constructor_deps analyzed_apis
        let analyzed_apis := P.discard_ignored_functions analyzed_apis
        let analyzed_apis := P.check_names analyzed_apis
        let analyzed_apis := P.filter_apis_by_ignored_dependents analyzed_apis
        let analyzed_apis := P.filter_apis_by_following_edges_from_allowlist analyzed_apis self.config
        let analyzed_apis := P.append_ctype_information analyzed_apis
        codegenStage P self analyzed_apis bindgen_mod unsafe_policy inclusions codegen_options

/-- Labels for the pipeline steps of `convert`, in the order the source calls
them; used to observe the order in which `convert` invokes the phases. -/
inductive PhaseLabel where
  | typedefs
  | pod
  | replaceHopelessTypedefTargets
  | casts
  | allocators
  | functions
  | abstractTypes
  | constructorDeps
  | discardIgnored
  | checkNames
  | ignoredDependents
  | gc
  | ctypes
  | codegen
deriving DecidableEq, BEq, Repr

/-- A phase instantiation whose record collection is the list of phase labels
applied so far: each phase appends its own label, the C++ generator emits a
pair carrying the header name it was given, and the Rust generator returns
the collection it received plus the codegen label.  The trace in the output
therefore records exactly which phases ran and in which order. -/
def tracingPhases : Phases (List PhaseLabel) (List PhaseLabel) where
  parse_items := fun _ _ _ _ => Except.ok []
  convert_typedef_targets := fun _ s _ => s ++ [PhaseLabel.typedefs]
  analyze_pod_apis := fun s _ _ => Except.ok (s ++ [PhaseLabel.pod])
  replace_hopeless_typedef_targets := fun _ s => s ++ [PhaseLabel.replaceHopelessTypedefTargets]
  add_casts := fun s => s ++ [PhaseLabel.casts]
  create_alloc_and_frees := fun s => s ++ [PhaseLabel.allocators]
  analyze_functions := fun s _ _ _ => s ++ [PhaseLabel.functions]
  mark_types_abstract := fun s => s ++ [PhaseLabel.abstractTypes]
  decorate_types_with_constructor_deps := fun s => s ++ [PhaseLabel.constructorDeps]
  discard_ignored_functions := fun s => s ++ [PhaseLabel.discardIgnored]
  check_names := fun s => s ++ [PhaseLabel.checkNames]
  filter_apis_by_ignored_dependents := fun s => s ++ [PhaseLabel.ignoredDependents]
  filter_apis_by_following_edges_from_allowlist := fun s _ => s ++ [PhaseLabel.gc]
  append_ctype_information := fun s => s ++ [PhaseLabel.ctypes]
  generate_cpp_code := fun _ _ _ _ hname => Except.ok (some ⟨"", none, hname⟩)
  generate_rs_code := fun s _ _ _ _ _ => s ++ [PhaseLabel.codegen]

/-- The full phase trace `convert` produces on any input with content, in
source order. -/
def fullPhaseTrace : List PhaseLabel :=
  [PhaseLabel.typedefs, PhaseLabel.pod, PhaseLabel.replaceHopelessTypedefTargets,
   PhaseLabel.casts, PhaseLabel.allocators, PhaseLabel.functions,
   PhaseLabel.abstractTypes, PhaseLabel.constructorDeps, PhaseLabel.discardIgnored,
   PhaseLabel.checkNames, PhaseLabel.ignoredDependents, PhaseLabel.gc,
   PhaseLabel.ctypes, PhaseLabel.codegen]

/-- A phase instantiation that observes the header-name threading: the
analysis phases are trivial, the C++ generator produces `f n` where `n` is
the header name it was handed, and the Rust generator returns the optional
header name it was handed. -/
def headerProbePhases (f : String → Option CppFilePair) : Phases Unit (Option String) where
  parse_items := fun _ _ _ _ => Except.ok ()
  convert_typedef_targets := fun _ s _ => s
  analyze_pod_apis := fun s _ _ => Except.ok s
  replace_hopeless_typedef_targets := fun _ s => s
  add_casts := fun s => s
  create_alloc_and_frees := fun s => s
  analyze_functions := fun s _ _ _ => s
  mark_types_abstract := fun s => s
  decorate_types_with_constructor_deps := fun s => s
  discard_ignored_functions := fun s => s
  check_names := fun s => s
  filter_apis_by_ignored_dependents := fun s => s
  filter_apis_by_following_edges_from_allowlist := fun s _ => s
  append_ctype_information := fun s => s
  generate_cpp_code := fun _ _ _ _ hname => Except.ok (f hname)
  generate_rs_code := fun _ _ _ _ _ hdr => hdr

/-- Modelled from the spec: POD analysis fails with a per-type error when the
user explicitly requested POD treatment for a type that cannot satisfy it
(spec section 4.2); this instantiation represents a run on an input containing
such a request, every other phase being trivial. -/
def podFailPhases (e : ConvertErrorFromCpp) : Phases Unit Unit where
  parse_items := fun _ _ _ _ => Except.ok ()
  convert_typedef_targets := fun _ s _ => s
  analyze_pod_apis := fun _ _ _ => Except.error e
  replace_hopeless_typedef_targets := fun _ s => s
  add_casts := fun s => s
  create_alloc_and_frees := fun s => s
  analyze_functions := fun s _ _ _ => s
  mark_types_abstract := fun s => s
  decorate_types_with_constructor_deps := fun s => s
  discard_ignored_functions := fun s => s
  check_names := fun s => s
  filter_apis_by_ignored_dependents := fun s => s
  filter_apis_by_following_edges_from_allowlist := fun s _ => s
  append_ctype_information := fun s => s
  generate_cpp_code := fun _ _ _ _ _ => Except.ok none
  generate_rs_code := fun _ _ _ _ _ _ => ()

/-- Modelled from the spec: the C++ code generator fails fast with a
Cpp-codegen-specific error on an upstream invariant violation (spec
section 4.7); this instantiation represents such a run, every analysis phase
being trivial. -/
def cppGenFailPhases (e : ConvertErrorFromCpp) : Phases Unit Unit where
  parse_items := fun _ _ _ _ => Except.ok ()
  convert_typedef_targets := fun _ s _ => s
  analyze_pod_apis := fun s _ _ => Except.ok s
  replace_hopeless_typedef_targets := fun _ s => s
  add_casts := fun s => s
  create_alloc_and_frees := fun s => s
  analyze_functions := fun s _ _ _ => s
  mark_types_abstract := fun s => s
  decorate_types_with_constructor_deps := fun s => s
  discard_ignored_functions := fun s => s
  check_names := fun s => s
  filter_apis_by_ignored_dependents := fun s => s
  filter_apis_by_following_edges_from_allowlist := fun s _ => s
  append_ctype_information := fun s => s
  generate_cpp_code := fun _ _ _ _ _ => Except.error e
  generate_rs_code := fun _ _ _ _ _ _ => ()

/-- A sample configuration for concrete runs. -/
def sampleConfig : IncludeCppConfig := ⟨["A"]⟩

/-- A sample converter. -/
def sampleBc : BridgeConverter := ⟨["cxx.h"], sampleConfig⟩

/-- Sample parse-callback results: nothing discards a template parameter and
everything is public. -/
def samplePcr : ParseCallbackResults := ⟨fun _ => false, fun _ => CppVisibility.Public⟩

/-- A sample module with one declaration. -/
def sampleMod : ItemMod := ⟨some [⟨"struct A;"⟩]⟩

/-- Sample codegen options. -/
def sampleCo : CodegenOptions := ⟨false, ⟨⟨"cxxgen.h"⟩⟩⟩

/-- Modelled from the spec: the C++ original name reported by the external
parser's callbacks (`parse_callbacks.rs` is not among the sources); it wraps
the effective C++-side spelling of the item. -/
structure CppOriginalName where
  val : String
deriving DecidableEq, Repr

/-- Newtype wrapper for a C++ "effective name", i.e. the name used when
generating C++ code; it may contain several `::`-separated segments for an
inner type. -/
structure CppEffectiveName where
  val : String
deriving DecidableEq, Repr

/-- Modelled from the spec: `CppOriginalName::to_effective_name` converts the
reported original name verbatim into an effective name. -/
def CppOriginalName.to_effective_name (c : CppOriginalName) : CppEffectiveName :=
  ⟨c.val⟩

/-- `CppEffectiveName::from_cpp_name_and_rust_name`: use the C++ original
name when present, otherwise fall back to the given Rust name. -/
def CppEffectiveName.from_cpp_name_and_rust_name
    (cpp_name : Option CppOriginalName) (rust_name : String) : CppEffectiveName :=
  (cpp_name.map (fun cpp => cpp.to_effective_name)).getD ⟨rust_name⟩

/-- `CppEffectiveName::from_api_details`: build the effective name from the
optional original name and the final segment of the qualified name. -/
def CppEffectiveName.from_api_details
    (original_name : Option CppOriginalName) (api_name : QualifiedName) : CppEffectiveName :=
  CppEffectiveName.from_cpp_name_and_rust_name original_name api_name.get_final_item

/-- The separator `"::"` as a character list. -/
def sepChars : List Char := [':', ':']

/-- Substring test, as Rust's `str::contains` for a nonempty literal needle:
true when the needle occurs (contiguously) anywhere in the haystack. -/
def containsSub (needle : List Char) : List Char → Bool
  | [] => needle.isEmpty
  | c :: rest => needle.isPrefixOf (c :: rest) || containsSub needle rest

/-- Rust's `str::rsplit_once` for a nonempty literal needle: split around the
last occurrence of the needle, returning the part before and the part after;
`none` when the needle does not occur. -/
def rsplitOnceList (needle : List Char) : List Char → Option (List Char × List Char)
  | [] => none
  | c :: rest =>
    match rsplitOnceList needle rest with
    | some (a, b) => some (c :: a, b)
    | none =>
      if needle.isPrefixOf (c :: rest) then some ([], (c :: rest).drop needle.length)
      else none

/-- `CppEffectiveName::final_segment_if_any`:
`self.0.rsplit_once("::").map(|(_, suffix)| suffix)`. -/
def CppEffectiveName.final_segment_if_any (n : CppEffectiveName) : Option String :=
  (rsplitOnceList sepChars n.val.toList).map (fun p => String.mk p.2)

/-- `CppEffectiveName::is_nested`: `self.0.contains("::")`. -/
def CppEffectiveName.is_nested (n : CppEffectiveName) : Bool :=
  containsSub sepChars n.val.toList

/-- `check_for_fatal_attrs` (source lines 281–301): an `UnusedTemplateParam`
error when the callbacks report a discarded template parameter, else a
`NonPublicNestedType` error when the C++ visibility is not `Public`, else
`Ok`. -/
def check_for_fatal_attrs (callback_results : ParseCallbackResults)
    (name : QualifiedName) : Except ConvertErrorWithContext Unit :=
  if callback_results.discards_template_param name then
    Except.error ⟨ConvertErrorFromCpp.UnusedTemplateParam,
      some (ErrorContext.new_for_item name.get_final_ident)⟩
  else if !(callback_results.get_cpp_visibility name = CppVisibility.Public) then
    Except.error ⟨ConvertErrorFromCpp.NonPublicNestedType,
      some (ErrorContext.new_for_item name.get_final_ident)⟩
  else
    Except.ok ()

lemma isPrefixOf_append_drop {n l : List Char} (h : n.isPrefixOf l = true) :
    l = n ++ l.drop n.length := by
  induction n generalizing l with
  | nil => simp
  | cons a as ih =>
    cases l with
    | nil => simp [List.isPrefixOf] at h
    | cons b bs =>
      simp only [List.isPrefixOf, Bool.and_eq_true, beq_iff_eq] at h
      obtain ⟨h1, h2⟩ := h
      subst h1
      rw [List.length_cons, List.drop_succ_cons, List.cons_append]
      exact congrArg (List.cons a) (ih h2)

lemma containsSub_of_append_eq_false {n y : List Char} :
    ∀ t : List Char, containsSub n (t ++ y) = false → containsSub n y = false := by
  intro t
  induction t with
  | nil => exact fun h => h
  | cons c t ih =>
    intro h
    rw [List.cons_append] at h
    rw [containsSub] at h
    exact ih (by
      rcases Bool.or_eq_false_iff.mp h with ⟨_, h2⟩
      exact h2)

lemma rsplitOnceList_isSome_eq (s : List Char) :
    (rsplitOnceList sepChars s).isSome = containsSub sepChars s := by
  induction s with
  | nil => rfl
  | cons c rest ih =>
    rw [rsplitOnceList, containsSub]
    cases hr : rsplitOnceList sepChars rest with
    | some p =>
      rw [hr] at ih
      simp only [Option.isSome_some] at ih
      simp [← ih]
    | none =>
      rw [hr] at ih
      simp only [Option.isSome_none] at ih
      rw [← ih, Bool.or_false]
      cases hp : sepChars.isPrefixOf (c :: rest) with
      | true => simp [hp]
      | false => simp [hp]

lemma rsplitOnceList_eq_some (s : List Char) :
    ∀ a b : List Char, rsplitOnceList sepChars s = some (a, b) →
      s = a ++ sepChars ++ b ∧ containsSub sepChars b = false := by
  induction s with
  | nil => intro a b h; exact absurd h (by rw [rsplitOnceList]; exact Option.noConfusion)
  | cons c rest ih =>
    intro a b h
    rw [rsplitOnceList] at h
    cases hr : rsplitOnceList sepChars rest with
    | some p =>
      obtain ⟨a2, b2⟩ := p
      rw [hr] at h
      simp only [Option.some.injEq, Prod.mk.injEq] at h
      obtain ⟨ha, hb⟩ := h
      obtain ⟨h1, h2⟩ := ih a2 b2 hr
      subst ha
      subst hb
      refine ⟨?_, h2⟩
      rw [h1]
      simp
    | none =>
      rw [hr] at h
      by_cases hp : sepChars.isPrefixOf (c :: rest) = true
      · rw [if_pos hp] at h
        simp only [Option.some.injEq, Prod.mk.injEq] at h
        obtain ⟨ha, hb⟩ := h
        subst ha
        subst hb
        have hl : c :: rest = sepChars ++ (c :: rest).drop sepChars.length :=
          isPrefixOf_append_drop hp
        have hrest : rest = [':'] ++ (c :: rest).drop sepChars.length := by
          rw [show sepChars = ':' :: [':'] from rfl, List.cons_append] at hl
          exact (List.cons.inj hl).2
        refine ⟨by rw [List.nil_append]; exact hl, ?_⟩
        have hcontains : containsSub sepChars rest = false := by
          have h3 := rsplitOnceList_isSome_eq rest
          rw [hr] at h3
          exact h3.symm
        rw [hrest] at hcontains
        exact containsSub_of_append_eq_false [':'] hcontains
      · rw [if_neg hp] at h
        exact absurd h Option.noConfusion

/-- Claim C1: for every input with declaration content, `convert` applies the
analysis phases in exactly the fixed order typedef conversion, POD analysis,
`replace_hopeless_typedef_targets`, cast insertion, allocator/free synthesis,
function analysis, abstract marking, constructor-dependency decoration,
discarding ignored functions, name checking, ignored-dependent filtering,
reachability GC, C-type collection, and only then code generation; each phase
consumes the previous phase's collection.  Instantiating the phase functions
so that each appends its own label to the collection it receives, the Rust
codegen output is exactly the full trace in that order. -/
theorem convert_phase_order (bc : BridgeConverter) (items : List Item)
    (pcr : ParseCallbackResults) (up : UnsafePolicy) (inclusions : String)
    (co : CodegenOptions) (src : String) :
    bc.convert tracingPhases ⟨some items⟩ pcr up inclusions co src =
      Except.ok
        { rs := fullPhaseTrace,
          cpp := some ⟨"", none, co.cpp_codegen_options.cxxgen_header_namer.name_header⟩,
          cxxgen_header_name := co.cpp_codegen_options.cxxgen_header_namer.name_header } := rfl

/-- Claim C2: on a bindgen module with no content, `convert` returns the
`NoContent` error immediately, for every possible implementation of the
phases (so no phase runs and no partial output exists). -/
theorem convert_no_content {A R : Type} (P : Phases A R) (bc : BridgeConverter)
    (pcr : ParseCallbackResults) (up : UnsafePolicy) (inclusions : String)
    (co : CodegenOptions) (src : String) :
    bc.convert P ⟨none⟩ pcr up inclusions co src =
      Except.error ConvertError.NoContent := rfl

/-- Claim C3 counterexample: on a run in which the user explicitly requested
POD treatment for a type that cannot satisfy it (modelled by POD analysis
returning its per-type error, spec section 4.2), `convert` aborts the whole
run with a terminal `Cpp` error — it does not continue for the remainder of
the API surface, contrary to the claim. -/
theorem pod_failure_aborts_counterexample :
    sampleBc.convert
        (podFailPhases (ConvertErrorFromCpp.UnsafePodType "type is not trivially relocatable"))
        sampleMod samplePcr UnsafePolicy.AllFunctionsSafe "" sampleCo "" =
      Except.error
        (ConvertError.Cpp (ConvertErrorFromCpp.UnsafePodType "type is not trivially relocatable")) := rfl

/-- Claim C3 (amended): whenever parsing succeeds and POD analysis fails with
a per-type error `e` (as it does when the user explicitly requested POD
treatment for a type that cannot satisfy it), `convert` aborts the entire run
and returns `ConvertError::Cpp e`; no later phase output is produced. -/
theorem pod_failure_aborts {A R : Type} (P : Phases A R) (bc : BridgeConverter)
    (items : List Item) (pcr : ParseCallbackResults) (up : UnsafePolicy)
    (inclusions : String) (co : CodegenOptions) (src : String) (u : A)
    (e : ConvertErrorFromCpp)
    (hparse : P.parse_items bc.config pcr items src = Except.ok u)
    (hpod : P.analyze_pod_apis (P.convert_typedef_targets bc.config u pcr) bc.config pcr =
      Except.error e) :
    bc.convert P ⟨some items⟩ pcr up inclusions co src =
      Except.error (ConvertError.Cpp e) := by
  dsimp only [BridgeConverter.convert]
  rw [hparse]
  dsimp only []
  rw [hpod]

/-- Claim C3 (amended) witness: a concrete run whose POD analysis reports a
failed explicit POD request, aborting `convert` with `Cpp`. -/
theorem pod_failure_aborts_witness :
    sampleBc.convert
        (podFailPhases (ConvertErrorFromCpp.UnsafePodType "contains a std::string field"))
        sampleMod samplePcr UnsafePolicy.AllFunctionsUnsafe "inc" sampleCo "src" =
      Except.error
        (ConvertError.Cpp (ConvertErrorFromCpp.UnsafePodType "contains a std::string field")) :=
  pod_failure_aborts _ sampleBc [⟨"struct A;"⟩] samplePcr UnsafePolicy.AllFunctionsUnsafe
    "inc" sampleCo "src" () _ rfl rfl

/-- Claim C4: in every run with content, the ignored-dependent cascade
(`filter_apis_by_ignored_dependents`) is applied strictly before reachability
GC (`filter_apis_by_following_edges_from_allowlist`): in the observed phase
trace the cascade label occurs at a strictly smaller position than the GC
label. -/
theorem cascade_before_gc (bc : BridgeConverter) (items : List Item)
    (pcr : ParseCallbackResults) (up : UnsafePolicy) (inclusions : String)
    (co : CodegenOptions) (src : String) :
    ∃ r : CodegenResults (List PhaseLabel),
      bc.convert tracingPhases ⟨some items⟩ pcr up inclusions co src = Except.ok r
      ∧ r.rs.indexOf PhaseLabel.ignoredDependents < r.rs.indexOf PhaseLabel.gc := by
  refine
    ⟨{ rs := fullPhaseTrace,
       cpp := some ⟨"", none, co.cpp_codegen_options.cxxgen_header_namer.name_header⟩,
       cxxgen_header_name := co.cpp_codegen_options.cxxgen_header_namer.name_header },
     rfl, ?_⟩
  show List.indexOf PhaseLabel.ignoredDependents fullPhaseTrace <
    List.indexOf PhaseLabel.gc fullPhaseTrace
  decide

/-- Claim C5 counterexample: one run failing in C++-side (POD) analysis and
one run failing in the C++ code-generation stage return the very same error
value, `Cpp` in both cases — the caller cannot tell the two apart from the
returned variant. -/
theorem analysis_and_codegen_errors_same_variant :
    sampleBc.convert (podFailPhases (ConvertErrorFromCpp.Other "invariant violated"))
        sampleMod samplePcr UnsafePolicy.AllFunctionsSafe "" sampleCo "" =
      sampleBc.convert (cppGenFailPhases (ConvertErrorFromCpp.Other "invariant violated"))
        sampleMod samplePcr UnsafePolicy.AllFunctionsSafe "" sampleCo ""
    ∧ sampleBc.convert (cppGenFailPhases (ConvertErrorFromCpp.Other "invariant violated"))
        sampleMod samplePcr UnsafePolicy.AllFunctionsSafe "" sampleCo "" =
      Except.error (ConvertError.Cpp (ConvertErrorFromCpp.Other "invariant violated")) :=
  ⟨rfl, rfl⟩

/-- Claim C5 (amended): the error type distinguishes "no content to convert"
(`NoContent`) from C++-side errors (`Cpp` with context); both an
analysis-stage failure and a code-generation-stage failure surface as the
same `Cpp` variant, so those two are not distinguishable by variant alone. -/
theorem convert_error_variant_surface :
    ((ConvertError.NoContent == ConvertError.Cpp (ConvertErrorFromCpp.Other "e")) = false)
    ∧ sampleBc.convert (podFailPhases (ConvertErrorFromCpp.Other "e")) sampleMod samplePcr
        UnsafePolicy.AllFunctionsSafe "" sampleCo "" =
        Except.error (ConvertError.Cpp (ConvertErrorFromCpp.Other "e"))
    ∧ sampleBc.convert (cppGenFailPhases (ConvertErrorFromCpp.Other "e")) sampleMod samplePcr
        UnsafePolicy.AllFunctionsSafe "" sampleCo "" =
        Except.error (ConvertError.Cpp (ConvertErrorFromCpp.Other "e")) :=
  ⟨rfl, rfl, rfl⟩

/-- Claim C6: on every successful run, the optional header name handed to the
Rust code generator is exactly the generated C++ file pair's own header name
(`Some` exactly when a pair was produced), and the `cxxgen_header_name` in
the returned results is the very name that was passed to the C++ code
generator (the namer's output).  The probe instantiation returns, as its
Rust output, precisely the optional header name the Rust generator was
handed, and lets the C++ generator produce `f` of the name it was passed. -/
theorem header_name_threading (f : String → Option CppFilePair) (bc : BridgeConverter)
    (items : List Item) (pcr : ParseCallbackResults) (up : UnsafePolicy)
    (inclusions : String) (co : CodegenOptions) (src : String) :
    bc.convert (headerProbePhases f) ⟨some items⟩ pcr up inclusions co src =
      Except.ok
        { rs := (f co.cpp_codegen_options.cxxgen_header_namer.name_header).map
            (fun pair => pair.header_name),
          cpp := f co.cpp_codegen_options.cxxgen_header_namer.name_header,
          cxxgen_header_name := co.cpp_codegen_options.cxxgen_header_namer.name_header } := rfl

/-- Claim C7: `check_for_fatal_attrs` returns the `UnusedTemplateParam` error
with the item's identifier when the callbacks report a discarded template
parameter; otherwise the `NonPublicNestedType` error with the item's
identifier when the visibility is not `Public`; otherwise `Ok` — so an item
is fatally unsupported exactly when it discards a template parameter or is
not public. -/
theorem check_for_fatal_attrs_spec (pcr : ParseCallbackResults) (name : QualifiedName) :
    (pcr.discards_template_param name = true →
      check_for_fatal_attrs pcr name =
        Except.error ⟨ConvertErrorFromCpp.UnusedTemplateParam,
          some (ErrorContext.new_for_item name.get_final_ident)⟩)
    ∧ (pcr.discards_template_param name = false →
        pcr.get_cpp_visibility name ≠ CppVisibility.Public →
        check_for_fatal_attrs pcr name =
          Except.error ⟨ConvertErrorFromCpp.NonPublicNestedType,
            some (ErrorContext.new_for_item name.get_final_ident)⟩)
    ∧ (pcr.discards_template_param name = false →
        pcr.get_cpp_visibility name = CppVisibility.Public →
        check_for_fatal_attrs pcr name = Except.ok ())
    ∧ (check_for_fatal_attrs pcr name = Except.ok () ↔
        (pcr.discards_template_param name = false
          ∧ pcr.get_cpp_visibility name = CppVisibility.Public)) := by
  unfold check_for_fatal_attrs
  refine ⟨fun h => by simp [h], fun h1 h2 => by simp [h1, h2], fun h1 h2 => by simp [h1, h2], ?_⟩
  by_cases h1 : pcr.discards_template_param name = true
  · simp [h1]
  · by_cases h2 : pcr.get_cpp_visibility name = CppVisibility.Public
    · simp [h1, h2]
    · simp [h1, h2]

/-- Claim C7 witness: a concrete item that discards a template parameter is
rejected with `UnusedTemplateParam` and its identifier as context. -/
theorem check_for_fatal_attrs_spec_witness :
    check_for_fatal_attrs ⟨fun _ => true, fun _ => CppVisibility.Private⟩ ⟨["ns"], "T"⟩ =
      Except.error ⟨ConvertErrorFromCpp.UnusedTemplateParam,
        some (ErrorContext.new_for_item "T")⟩ :=
  (check_for_fatal_attrs_spec _ _).1 rfl

/-- Claim C8: the code-generation stage is deterministic and performs no
further analysis of the records — its output depends only on the two
generation functions and the stage inputs: two phase sets agreeing on the
generators (but possibly differing in every analysis phase) applied to equal
collections, configuration, inclusions and options produce equal Rust items,
C++ file pair and header name. -/
theorem codegen_stage_deterministic {A R : Type} (P Q : Phases A R)
    (bc bc2 : BridgeConverter) (a a2 : A) (bm bm2 : ItemMod) (up up2 : UnsafePolicy)
    (incl incl2 : String) (co co2 : CodegenOptions)
    (hcpp : P.generate_cpp_code = Q.generate_cpp_code)
    (hrs : P.generate_rs_code = Q.generate_rs_code)
    (hbc : bc = bc2) (ha : a = a2) (hbm : bm = bm2) (hup : up = up2)
    (hincl : incl = incl2) (hco : co = co2) :
    codegenStage P bc a bm up incl co = codegenStage Q bc2 a2 bm2 up2 incl2 co2 := by
  subst hbc; subst ha; subst hbm; subst hup; subst hincl; subst hco
  simp only [codegenStage, hcpp, hrs]

/-- Claim C8 witness: the generation stage applied twice to one concrete
fully-analyzed collection with identical options yields identical output. -/
theorem codegen_stage_deterministic_witness :
    codegenStage tracingPhases sampleBc [] sampleMod UnsafePolicy.AllFunctionsSafe "" sampleCo =
      codegenStage tracingPhases sampleBc [] sampleMod UnsafePolicy.AllFunctionsSafe "" sampleCo :=
  codegen_stage_deterministic tracingPhases tracingPhases sampleBc sampleBc [] [] sampleMod
    sampleMod UnsafePolicy.AllFunctionsSafe UnsafePolicy.AllFunctionsSafe "" "" sampleCo sampleCo
    rfl rfl rfl rfl rfl rfl rfl rfl

/-- Claim C9: `CppEffectiveName::from_api_details` uses the C++ original name
(via `to_effective_name`) when one is present, and otherwise falls back
verbatim to the final segment of the qualified Rust-side name; being a total
function it never fails for any combination of inputs. -/
theorem from_api_details_spec (original_name : Option CppOriginalName)
    (api_name : QualifiedName) :
    (∀ c : CppOriginalName, original_name = some c →
      CppEffectiveName.from_api_details original_name api_name = c.to_effective_name)
    ∧ (original_name = none →
      CppEffectiveName.from_api_details original_name api_name =
        ⟨api_name.get_final_item⟩) := by
  constructor
  · intro c h
    subst h
    rfl
  · intro h
    subst h
    rfl

/-- Claim C9 witness: both branches evaluated at concrete names. -/
theorem from_api_details_spec_witness :
    CppEffectiveName.from_api_details (some ⟨"Outer::Inner"⟩) ⟨["root", "Outer"], "Inner"⟩ =
      CppOriginalName.to_effective_name ⟨"Outer::Inner"⟩
    ∧ CppEffectiveName.from_api_details none ⟨["root", "Outer"], "Inner"⟩ = ⟨"Inner"⟩ :=
  ⟨(from_api_details_spec _ _).1 _ rfl, (from_api_details_spec _ _).2 rfl⟩

/-- Claim C10: `final_segment_if_any` returns `Some` exactly when `is_nested`
is true (the string contains "::"), the returned segment is the suffix after
the last "::" occurrence (the remainder of the string contains no further
"::"), and for non-nested names the result is `None`. -/
theorem final_segment_iff_nested (n : CppEffectiveName) :
    ((n.final_segment_if_any).isSome = n.is_nested)
    ∧ (∀ seg : String, n.final_segment_if_any = some seg →
        ∃ a : List Char, n.val.toList = a ++ sepChars ++ seg.toList
          ∧ containsSub sepChars seg.toList = false)
    ∧ (n.is_nested = false → n.final_segment_if_any = none) := by
  refine ⟨?_, ?_, ?_⟩
  · rw [CppEffectiveName.final_segment_if_any, CppEffectiveName.is_nested,
      Option.isSome_map', rsplitOnceList_isSome_eq]
  · intro seg h
    rw [CppEffectiveName.final_segment_if_any] at h
    rw [Option.map_eq_some'] at h
    obtain ⟨⟨a, b⟩, hr, hs⟩ := h
    obtain ⟨h1, h2⟩ := rsplitOnceList_eq_some n.val.toList a b hr
    refine ⟨a, ?_, ?_⟩
    · rw [← hs]
      exact h1
    · rw [← hs]
      exact h2
  · intro h
    rw [CppEffectiveName.is_nested] at h
    rw [CppEffectiveName.final_segment_if_any]
    cases hr : rsplitOnceList sepChars n.val.toList with
    | none => rfl
    | some p =>
      have h3 := rsplitOnceList_isSome_eq n.val.toList
      rw [hr, h] at h3
      exact absurd h3 (by simp)

/-- Claim C10 witness: on the nested name "Outer::Inner" the final segment is
"Inner", the string decomposes around the last "::", and the segment itself
contains no "::". -/
theorem final_segment_iff_nested_witness :
    ∃ a : List Char,
      (CppEffectiveName.mk "Outer::Inner").val.toList =
        a ++ sepChars ++ (String.toList "Inner")
      ∧ containsSub sepChars (String.toList "Inner") = false :=
  (final_segment_iff_nested ⟨"Outer::Inner"⟩).2.1 "Inner" (by decide)

end Autocxx
